import Mathlib

/-!
Shallow embedding of `export_pdf.js` (ben-hurwitz/expobooklet): a static
asset server plus a PDF-export orchestrator.  The server's request handler
(`startServer`, lines 15-24 of the source) is embedded as a function from a
filesystem model and a raw request URL to an optional HTTP response (`none`
models an exception escaping the handler).  The orchestrator (the async IIFE,
lines 32-145) is embedded as a function `run` from an environment of external
effect outcomes to an event trace and an exit code.
-/

namespace ExpoBooklet

/-! ### String helpers (models of the JS/Node primitives the handler uses) -/

/-- Model of `req.url.split('?')[0]`: the characters before the first `?`. -/
def beforeQuery (url : String) : String :=
  ⟨url.data.takeWhile (fun c => c ≠ '?')⟩

/-- Value of a hex digit, or `none` for a non-hex character. -/
def hexVal (c : Char) : Option Nat :=
  if '0' ≤ c ∧ c ≤ '9' then some (c.toNat - 48)
  else if 'a' ≤ c ∧ c ≤ 'f' then some (c.toNat - 87)
  else if 'A' ≤ c ∧ c ≤ 'F' then some (c.toNat - 55)
  else none

/-- Percent-decoding at the character level: each well-formed `%XX` escape
becomes the code point `XX`; a `%` not followed by two hex digits is a
decoding error (`none`), modelling the `URIError` thrown by JS
`decodeURIComponent`.  (Multi-byte UTF-8 escape sequences are modelled one
byte per character; the claims only involve ASCII inputs.) -/
def pctDecode : List Char → Option (List Char)
  | [] => some []
  | '%' :: c1 :: c2 :: rest =>
    match hexVal c1, hexVal c2 with
    | some h, some l => (pctDecode rest).map (fun r => Char.ofNat (16 * h + l) :: r)
    | _, _ => none
  | '%' :: _ => none
  | c :: rest => (pctDecode rest).map (fun r => c :: r)

/-- Model of JS `decodeURIComponent`; `none` models a thrown `URIError`. -/
def decodeURIComponent (s : String) : Option String :=
  (pctDecode s.data).map (fun l => ⟨l⟩)

/-- Model of JS `String.prototype.toLowerCase` (ASCII-faithful). -/
def toLowerStr (s : String) : String :=
  ⟨s.data.map Char.toLower⟩

/-- Whether a path begins with the separator `/`. -/
def startsWithSlash (p : String) : Bool :=
  match p.data with
  | '/' :: _ => true
  | _ => false

/-- Model of Node `path.join(folder, p)` for the shapes used by the handler:
the two components are separated by exactly one `/`. -/
def joinPath (folder p : String) : String :=
  folder ++ (if startsWithSlash p then p else "/" ++ p)

/-- The component of a path after the last `/`. -/
def basenameOf (l : List Char) : List Char :=
  (l.reverse.takeWhile (fun c => c ≠ '/')).reverse

/-- Model of Node `path.extname`: the final `.`-suffix of the basename,
including the dot; empty when the basename has no dot or its only dot is
leading (as in `.bashrc`). -/
def extname (p : String) : String :=
  let b := basenameOf p.data
  let extRev := b.reverse.takeWhile (fun c => c ≠ '.')
  if extRev.length = b.length then ""
  else if extRev.length + 1 = b.length then ""
  else ⟨'.' :: extRev.reverse⟩

/-! ### The asset server (source lines 6-30) -/

/-- The extension-to-content-type table `MIME` (source lines 7-13). -/
def MIME : List (String × String) :=
  [(".html", "text/html"),
   (".css",  "text/css"),
   (".js",   "application/javascript"),
   (".png",  "image/png"),
   (".svg",  "image/svg+xml")]

/-- Association lookup in the `MIME` table (model of JS object indexing). -/
def lookupTable : List (String × String) → String → Option String
  | [], _ => none
  | (k, v) :: rest, e => if e = k then some v else lookupTable rest e

/-- Content-type selection of source line 20:
`MIME[path.extname(filePath).toLowerCase()] || 'application/octet-stream'`. -/
def mimeFor (ext : String) : String :=
  (lookupTable MIME (toLowerStr ext)).getD "application/octet-stream"

/-- An HTTP response as the handler produces it: status code, optional
`Content-Type` header, and body bytes. -/
structure Response where
  status : Nat
  contentType : Option String
  body : List Nat
  deriving DecidableEq, Repr

/-- The ASCII bytes of the 404 body `'Not found'` (source line 19). -/
def notFoundBody : List Nat := [78, 111, 116, 32, 102, 111, 117, 110, 100]

/-- A filesystem model: maps an absolute path to the bytes of a readable
file, or `none` when `fs.readFile` would report an error. -/
def FileSystem : Type := String → Option (List Nat)

/-- Path resolution of source line 17:
`path.join(folder, urlPath === '/' ? 'booklet.html' : urlPath)`. -/
def resolvePath (folder urlPath : String) : String :=
  joinPath folder (if urlPath = "/" then "booklet.html" else urlPath)

/-- The handler body after URL decoding (source lines 17-23): read the
resolved file; 404 on a read error, otherwise 200 with the file bytes and
the content type from the `MIME` table (default `application/octet-stream`). -/
def serveDecoded (folder : String) (fsys : FileSystem) (urlPath : String) : Response :=
  let filePath := resolvePath folder urlPath
  match fsys filePath with
  | none => ⟨404, none, notFoundBody⟩
  | some data => ⟨200, some (mimeFor (extname filePath)), data⟩

/-- The full request handler (source lines 15-24):
`decodeURIComponent(req.url.split('?')[0])`, then serve.  `none` models the
`URIError` thrown by `decodeURIComponent` escaping the handler before any
response is produced. -/
def handleRequest (folder : String) (fsys : FileSystem) (url : String) : Option Response :=
  (decodeURIComponent (beforeQuery url)).map (serveDecoded folder fsys)

/-! ### The diagnostics snapshot (source lines 89-98) -/

/-- The DOM state the diagnostics `page.evaluate` callback reads: page
title, counts of elements matching `.exhibit-box` and `.page`, the
`textContent` of the optional `#loading` and `#status` elements (`none`
when `document.getElementById` returns `null`), and the body HTML. -/
structure PageState where
  title : String
  exhibitBoxCount : Nat
  pageElemCount : Nat
  loadingTextContent : Option String
  statusTextContent : Option String
  bodyHTML : String
  deriving DecidableEq, Repr

/-- The snapshot record built by the diagnostics callback. -/
structure Diagnostics where
  title : String
  cardCount : Nat
  pageCount : Nat
  loadingText : String
  statusText : String
  bodySnippet : String
  deriving DecidableEq, Repr

/-- Model of `elem?.textContent || placeholder`: the placeholder when the
element is absent (optional chaining yields `undefined`) or its text is the
empty string (falsy under `||`). -/
def textOrPlaceholder (t : Option String) (placeholder : String) : String :=
  match t with
  | none => placeholder
  | some s => if s = "" then placeholder else s

/-- The diagnostics extraction (source lines 89-98), total by construction:
a snapshot is produced for every page state. -/
def extractDiagnostics (ps : PageState) : Diagnostics :=
  { title := ps.title
    cardCount := ps.exhibitBoxCount
    pageCount := ps.pageElemCount
    loadingText := textOrPlaceholder ps.loadingTextContent "(no #loading element)"
    statusText := textOrPlaceholder ps.statusTextContent "(no #status element)"
    bodySnippet := ⟨ps.bodyHTML.data.take 400⟩ }

/-! ### The orchestrator (source lines 32-145) -/

deriving instance DecidableEq for Except

/-- Outcomes of the external effects the orchestrator awaits.  Each field is
`Except`: `.error` models the corresponding promise rejecting (an exception
at the `await`). -/
structure Env where
  serverStart : Except String Unit
  launch : Except String Unit
  newPage : Except String Unit
  goto : Except String Unit
  waitFn : Except String Unit
  eval : Except String PageState
  pdf : Except String Unit
  deriving DecidableEq, Repr

/-- Observable actions of the orchestrator, in program order. -/
inductive Ev where
  | logServerError
  | launchBrowser
  | logNavTimeout
  | logFailure
  | logUnexpected
  | writePdf (path : String)
  | closeBrowser
  | closeServer
  deriving DecidableEq, Repr

/-- What a run produces: the event trace and the process exit code. -/
structure RunResult where
  events : List Ev
  exit : Nat
  deriving DecidableEq, Repr

/-- The orchestrator (the async IIFE, source lines 32-145), with `dir`
standing for `__dirname`.  Mirrors the source control flow:
server-start failure is caught and exits 1 (lines 38-43); `page.goto`
failure is caught and only logged (lines 69-75); `page.waitForFunction`
failure is caught into the `timedOut` flag (lines 78-86); the decision
`timedOut || diagnostics.cardCount === 0` closes the browser and server and
exits 1 (lines 109-118); otherwise the PDF is written and the run exits 0
after cleanup (lines 120-140).  Any other rejection reaches the top-level
`catch`, which only logs and exits 1 (lines 142-145). -/
def run (dir : String) (env : Env) : RunResult :=
  match env.serverStart with
  | .error _ => ⟨[.logServerError], 1⟩
  | .ok _ =>
    match env.launch with
    | .error _ => ⟨[.launchBrowser, .logUnexpected], 1⟩
    | .ok _ =>
      match env.newPage with
      | .error _ => ⟨[.launchBrowser, .logUnexpected], 1⟩
      | .ok _ =>
        let gotoEvs : List Ev :=
          match env.goto with
          | .ok _ => []
          | .error _ => [.logNavTimeout]
        let timedOut : Bool :=
          match env.waitFn with
          | .ok _ => false
          | .error _ => true
        match env.eval with
        | .error _ => ⟨.launchBrowser :: gotoEvs ++ [.logUnexpected], 1⟩
        | .ok ps =>
          let diagnostics := extractDiagnostics ps
          if timedOut ∨ diagnostics.cardCount = 0 then
            ⟨.launchBrowser :: gotoEvs ++ [.logFailure, .closeBrowser, .closeServer], 1⟩
          else
            match env.pdf with
            | .error _ => ⟨.launchBrowser :: gotoEvs ++ [.logUnexpected], 1⟩
            | .ok _ =>
              ⟨.launchBrowser :: gotoEvs ++
                [.writePdf (joinPath dir "expo_booklet.pdf"), .closeBrowser, .closeServer], 0⟩

/-- The paths of the output files a run writes, in order. -/
def writesOf (r : RunResult) : List String :=
  r.events.filterMap (fun e =>
    match e with
    | .writePdf p => some p
    | _ => none)

/-! ### Concrete fixtures used by witnesses and counterexamples -/

/-- A page state whose rendering succeeded: three exhibit boxes, two pages,
both optional status elements present. -/
def psRendered : PageState :=
  ⟨"Expo", 3, 2, some "done", some "ok", "<div class=x>body</div>"⟩

/-- A page state with no rendered exhibit boxes and both optional status
elements absent. -/
def psEmpty : PageState :=
  ⟨"Expo", 0, 0, none, none, "<div></div>"⟩

/-- An environment in which every external effect succeeds. -/
def envAllOk : Env :=
  ⟨.ok (), .ok (), .ok (), .ok (), .ok (), .ok psRendered, .ok ()⟩

/-- An environment in which everything succeeds except the final
`page.pdf` call, which rejects. -/
def envPdfFails : Env :=
  ⟨.ok (), .ok (), .ok (), .ok (), .ok (), .ok psRendered, .error "EACCES"⟩

/-- An environment in which the server fails to bind its port. -/
def envBindFails : Env :=
  ⟨.error "EADDRINUSE", .ok (), .ok (), .ok (), .ok (), .ok psRendered, .ok ()⟩

/-- An environment in which the render wait times out over an empty page. -/
def envRenderTimesOut : Env :=
  ⟨.ok (), .ok (), .ok (), .ok (), .error "timed out", .ok psEmpty, .ok ()⟩

/-- A one-file filesystem: `/r/a.html` holds the single byte 104. -/
def fsHtml : FileSystem :=
  fun p => if p = "/r/a.html" then some [104] else none

/-- A one-file filesystem whose file has an upper-case extension:
`/r/a.HTML` holds the single byte 104. -/
def fsUpper : FileSystem :=
  fun p => if p = "/r/a.HTML" then some [104] else none

/-- The empty filesystem: every read fails. -/
def fsEmpty : FileSystem := fun _ => none

/-- A page state where only the optional `#loading` element is absent
(the `#status` element is present). -/
def psNoLoading : PageState :=
  ⟨"Expo", 3, 2, none, some "ok", "<div class=x>body</div>"⟩

/-- A page state where only the optional `#status` element is absent
(the `#loading` element is present). -/
def psNoStatus : PageState :=
  ⟨"Expo", 3, 2, some "done", none, "<div class=x>body</div>"⟩

/-! ## Theorems for the claims -/

/-- Claim C1, amended: for every request URL whose percent-encoding is
well-formed (so `decodeURIComponent` succeeds), if the resolved file is
readable the server responds 200 with exactly the file bytes and the
content type given by the `MIME` table for the file's extension
(`application/octet-stream` when the extension is not in the table, via
`mimeFor`); if the resolved file cannot be read it responds 404.  The
well-formedness condition is forced by the counterexample: on a malformed
escape the handler throws before producing any response. -/
theorem c1_server_response_amended (folder : String) (fsys : FileSystem) (url p : String)
    (hdec : decodeURIComponent (beforeQuery url) = some p) :
    (∀ data, fsys (resolvePath folder p) = some data →
      handleRequest folder fsys url =
        some ⟨200, some (mimeFor (extname (resolvePath folder p))), data⟩) ∧
    (fsys (resolvePath folder p) = none →
      handleRequest folder fsys url = some ⟨404, none, notFoundBody⟩) := by
  constructor
  · intro data h
    rw [handleRequest, hdec, Option.map]
    simp only [serveDecoded, h]
  · intro h
    rw [handleRequest, hdec, Option.map]
    simp only [serveDecoded, h]

/-- Witness for C1: on the one-file filesystem `fsHtml`, requesting the
existing `/a.html` yields 200 with the file's byte and `text/html`, and
requesting the missing `/nope.css` yields 404. -/
theorem c1_server_response_witness :
    handleRequest "/r" fsHtml "/a.html" = some ⟨200, some "text/html", [104]⟩ ∧
    handleRequest "/r" fsHtml "/nope.css" = some ⟨404, none, notFoundBody⟩ :=
  ⟨(c1_server_response_amended "/r" fsHtml "/a.html" "/a.html" (by decide)).1 [104] (by decide),
   (c1_server_response_amended "/r" fsHtml "/nope.css" "/nope.css" (by decide)).2 (by decide)⟩

/-- Counterexample to C1 as stated: the path `/%` has no readable file (the
filesystem is empty), yet the handler does not respond 404 — it throws in
`decodeURIComponent` and produces no response at all. -/
theorem c1_server_response_counterexample :
    handleRequest "/r" fsEmpty "/%" = none := by decide

/-- Claim C2: in a run where the render wait succeeds before its timeout
and the diagnosed content count is positive (and the surrounding external
calls resolve), the orchestrator writes exactly one output file, at
`expo_booklet.pdf` beside the script, and exits with status 0. -/
theorem c2_success_writes_pdf (dir : String) (env : Env) (ps : PageState)
    (hs : env.serverStart = .ok ()) (hl : env.launch = .ok ())
    (hn : env.newPage = .ok ()) (hw : env.waitFn = .ok ())
    (he : env.eval = .ok ps) (hc : 0 < ps.exhibitBoxCount)
    (hp : env.pdf = .ok ()) :
    (run dir env).exit = 0 ∧
    writesOf (run dir env) = [joinPath dir "expo_booklet.pdf"] := by
  have hne : ¬ (extractDiagnostics ps).cardCount = 0 := by
    simp [extractDiagnostics]; omega
  rcases hg : env.goto with eg | ug <;>
    simp [run, hs, hl, hn, hw, he, hp, hg, hne, writesOf]

/-- Witness for C2: the all-successful environment writes exactly
`expo_booklet.pdf` beside the script and exits 0. -/
theorem c2_success_writes_pdf_witness :
    (run "/s" envAllOk).exit = 0 ∧
    writesOf (run "/s" envAllOk) = [joinPath "/s" "expo_booklet.pdf"] :=
  c2_success_writes_pdf "/s" envAllOk psRendered rfl rfl rfl rfl rfl (by decide) rfl

/-- Claim C3: in a run that reaches the decision point with the timed-out
flag set (the render wait rejected) or a zero diagnosed content count, the
orchestrator prints the failure explanation, closes the browser, stops the
server, exits with status 1, and writes no output file. -/
theorem c3_failure_exit_one (dir : String) (env : Env) (ps : PageState) (er : String)
    (hs : env.serverStart = .ok ()) (hl : env.launch = .ok ())
    (hn : env.newPage = .ok ()) (he : env.eval = .ok ps)
    (hfail : env.waitFn = .error er ∨ (extractDiagnostics ps).cardCount = 0) :
    (run dir env).exit = 1 ∧
    Ev.logFailure ∈ (run dir env).events ∧
    Ev.closeBrowser ∈ (run dir env).events ∧
    Ev.closeServer ∈ (run dir env).events ∧
    writesOf (run dir env) = [] := by
  rcases hfail with hw | hz
  · rcases hg : env.goto with eg | ug <;>
      simp [run, hs, hl, hn, he, hw, hg, writesOf]
  · rcases hg : env.goto with eg | ug <;>
      rcases hw : env.waitFn with ew | uw <;>
      simp [run, hs, hl, hn, he, hw, hg, hz, writesOf]

/-- Witness for C3: the environment whose render wait times out over an
empty page exits 1, logs the failure, cleans up, and writes nothing. -/
theorem c3_failure_exit_one_witness :
    (run "/s" envRenderTimesOut).exit = 1 ∧
    Ev.logFailure ∈ (run "/s" envRenderTimesOut).events ∧
    Ev.closeBrowser ∈ (run "/s" envRenderTimesOut).events ∧
    Ev.closeServer ∈ (run "/s" envRenderTimesOut).events ∧
    writesOf (run "/s" envRenderTimesOut) = [] :=
  c3_failure_exit_one "/s" envRenderTimesOut psEmpty "timed out" rfl rfl rfl rfl (Or.inl rfl)

/-- Claim C4, amended: the browser and server are explicitly released on
the success path and on the render-failure decision path, but not on every
exit path — the top-level exception handler only logs and exits 1 without
closing either (see the counterexample), and the server-bind-failure path
exits before any resource is acquired. -/
theorem c4_cleanup_amended (dir : String) (env : Env) :
    ((run dir env).exit = 0 →
      Ev.closeBrowser ∈ (run dir env).events ∧ Ev.closeServer ∈ (run dir env).events) ∧
    (Ev.logFailure ∈ (run dir env).events →
      Ev.closeBrowser ∈ (run dir env).events ∧ Ev.closeServer ∈ (run dir env).events) := by
  rcases env with ⟨s, l, n, g, w, ev, pd⟩
  rcases s with es | us <;> rcases l with el | ul <;> rcases n with en | un <;>
    rcases g with eg | ug <;> rcases w with ew | uw <;> rcases ev with ee | ps <;>
    rcases pd with ep | up <;>
    simp [run] <;>
    by_cases hz : (extractDiagnostics ps).cardCount = 0 <;> simp [hz]

/-- Counterexample to C4 as stated: when `page.pdf` rejects, the rejection
reaches the top-level catch, which exits 1 without closing the browser or
stopping the server — cleanup is not attempted on this fatal path. -/
theorem c4_cleanup_counterexample :
    (run "/s" envPdfFails).exit = 1 ∧
    Ev.closeBrowser ∉ (run "/s" envPdfFails).events ∧
    Ev.closeServer ∉ (run "/s" envPdfFails).events := by decide

/-- Witness for C4 (amended): on the all-successful run, which exits 0,
both the browser and the server are released. -/
theorem c4_cleanup_witness :
    Ev.closeBrowser ∈ (run "/s" envAllOk).events ∧
    Ev.closeServer ∈ (run "/s" envAllOk).events :=
  (c4_cleanup_amended "/s" envAllOk).1 (by decide)

/-- Claim C5: when starting the asset server fails (the bind promise
rejects, a catchable condition by construction of `Env.serverStart`), the
orchestrator reports the cause, exits with status 1, never attempts a
browser launch, and writes nothing. -/
theorem c5_bind_failure (dir : String) (env : Env) (e : String)
    (h : env.serverStart = .error e) :
    (run dir env).exit = 1 ∧
    Ev.logServerError ∈ (run dir env).events ∧
    Ev.launchBrowser ∉ (run dir env).events ∧
    writesOf (run dir env) = [] := by
  simp [run, h, writesOf]

/-- Witness for C5: the port-in-use environment exits 1, logs the server
error, and launches no browser. -/
theorem c5_bind_failure_witness :
    (run "/s" envBindFails).exit = 1 ∧
    Ev.logServerError ∈ (run "/s" envBindFails).events ∧
    Ev.launchBrowser ∉ (run "/s" envBindFails).events ∧
    writesOf (run "/s" envBindFails) = [] :=
  c5_bind_failure "/s" envBindFails "EADDRINUSE" rfl

/-- Claim C6: the server's response to the root path `/` is identical —
same status, same body bytes, same content type — to its response to the
default document path `/booklet.html`, for every root directory and
filesystem. -/
theorem c6_root_equiv (folder : String) (fsys : FileSystem) :
    handleRequest folder fsys "/" = handleRequest folder fsys "/booklet.html" := by
  have h3 : resolvePath folder "/" = resolvePath folder "/booklet.html" := by
    simp only [resolvePath, joinPath]
    have hs1 : startsWithSlash "booklet.html" = false := by decide
    have hs2 : startsWithSlash "/booklet.html" = true := by decide
    have he : ¬ ("/booklet.html" = "/") := by decide
    simp only [if_pos rfl, if_neg he, hs1, hs2, Bool.false_eq_true, if_false, if_true]
    have h : ("/" ++ "booklet.html" : String) = "/booklet.html" := by decide
    rw [h]
  have h1 : decodeURIComponent (beforeQuery "/") = some "/" := by decide
  have h2 : decodeURIComponent (beforeQuery "/booklet.html") = some "/booklet.html" := by decide
  have h4 : serveDecoded folder fsys "/" = serveDecoded folder fsys "/booklet.html" := by
    unfold serveDecoded
    rw [h3]
  rw [handleRequest, handleRequest, h1, h2, Option.map, Option.map, h4]

/-- Claim C7: a rejection of the navigation wait (`page.goto` with
`networkidle0`) is non-fatal: it is logged, and the run's exit code and
file writes are the same as if the navigation had succeeded — a navigation
timeout never by itself causes exit 1. -/
theorem c7_nav_timeout_nonfatal (dir : String) (env : Env) (e : String)
    (hs : env.serverStart = .ok ()) (hl : env.launch = .ok ())
    (hn : env.newPage = .ok ()) :
    Ev.logNavTimeout ∈ (run dir { env with goto := .error e }).events ∧
    (run dir { env with goto := .error e }).exit =
      (run dir { env with goto := .ok () }).exit ∧
    writesOf (run dir { env with goto := .error e }) =
      writesOf (run dir { env with goto := .ok () }) := by
  rcases env with ⟨s, l, n, g, w, ev, pd⟩
  simp only at hs hl hn
  subst hs; subst hl; subst hn
  rcases w with ew | uw <;> rcases ev with ee | ps <;> rcases pd with ep | up <;>
    simp [run, writesOf] <;>
    by_cases hz : (extractDiagnostics ps).cardCount = 0 <;> simp [hz, writesOf]

/-- Witness for C7: on the otherwise-successful environment, a navigation
timeout is logged and leaves the exit code and writes unchanged. -/
theorem c7_nav_timeout_nonfatal_witness :
    Ev.logNavTimeout ∈ (run "/s" { envAllOk with goto := .error "t" }).events ∧
    (run "/s" { envAllOk with goto := .error "t" }).exit =
      (run "/s" { envAllOk with goto := .ok () }).exit ∧
    writesOf (run "/s" { envAllOk with goto := .error "t" }) =
      writesOf (run "/s" { envAllOk with goto := .ok () }) :=
  c7_nav_timeout_nonfatal "/s" envAllOk "t" rfl rfl rfl

/-- Claim C8: the diagnostics extraction is total (`extractDiagnostics` is
a plain function, so a snapshot is produced for every page state), and for
every page state each optional status element that is absent independently
yields the placeholder string in its corresponding snapshot field rather
than an exception. -/
theorem c8_diagnostics_placeholder (ps : PageState) :
    (ps.loadingTextContent = none →
      (extractDiagnostics ps).loadingText = "(no #loading element)") ∧
    (ps.statusTextContent = none →
      (extractDiagnostics ps).statusText = "(no #status element)") := by
  constructor <;> intro h <;> simp [extractDiagnostics, textOrPlaceholder, h]

/-- Witness for C8: on a page state where only `#loading` is absent its
snapshot field is the placeholder, and on a page state where only
`#status` is absent its snapshot field is the placeholder. -/
theorem c8_diagnostics_placeholder_witness :
    (extractDiagnostics psNoLoading).loadingText = "(no #loading element)" ∧
    (extractDiagnostics psNoStatus).statusText = "(no #status element)" :=
  ⟨(c8_diagnostics_placeholder psNoLoading).1 rfl,
   (c8_diagnostics_placeholder psNoStatus).2 rfl⟩

/-- Claim C9: the request handler is not total over request URLs: for the
malformed percent-escape `/%`, `decodeURIComponent` fails (models the
thrown `URIError`) and the handler produces no response at all — in
particular, no 404 — for every root directory and filesystem. -/
theorem c9_handler_not_total :
    decodeURIComponent "/%" = none ∧
    ∀ (folder : String) (fsys : FileSystem), handleRequest folder fsys "/%" = none :=
  ⟨by decide, fun _ _ => rfl⟩

/-- Claim C10: the content-type lookup is case-insensitive: whenever the
lowercased extension of the resolved file hits the `MIME` table, the
response carries that table entry (not the generic fallback), regardless of
the letter case the extension was requested with. -/
theorem c10_mime_case_insensitive (folder : String) (fsys : FileSystem) (url p : String)
    (data : List Nat) (mt : String)
    (hdec : decodeURIComponent (beforeQuery url) = some p)
    (hfs : fsys (resolvePath folder p) = some data)
    (hmt : lookupTable MIME (toLowerStr (extname (resolvePath folder p))) = some mt) :
    handleRequest folder fsys url = some ⟨200, some mt, data⟩ := by
  rw [handleRequest, hdec, Option.map]
  simp only [serveDecoded, hfs, mimeFor, hmt, Option.getD]

/-- Witness for C10: the file `/r/a.HTML`, whose extension matches `.html`
only up to case, is served as `text/html`, not `application/octet-stream`. -/
theorem c10_mime_case_insensitive_witness :
    handleRequest "/r" fsUpper "/a.HTML" = some ⟨200, some "text/html", [104]⟩ :=
  c10_mime_case_insensitive "/r" fsUpper "/a.HTML" "/a.HTML" [104] "text/html"
    (by decide) (by decide) (by decide)

end ExpoBooklet
